import Mathlib

/-!
Verification development for the astrological calculation engine in
`astro_calculator.py` (class ProfessionalAstrologicalCalculator).

The engine is embedded shallowly:

* Python float arithmetic is modelled as exact arithmetic in a linear ordered
  field (instantiated at `ℚ` where the source code uses no trigonometry, and at
  `ℝ` for the functions that call `math.sin` / `math.cos` / `math.atan2`).
* The Python float operator `%` (used with positive modulus everywhere in the
  source) is `pymod a b = a - b * ⌊a / b⌋`.
* Python `int(...)` (truncation towards zero) is `pytrunc`; Python `math.floor`
  is `Int.floor`; Python `//` (floor division) on integers is `Int.fdiv`.
* Python `%` on integers with a positive modulus agrees with `Int.emod`, which
  is the `%` of `ℤ` in Lean.
* Python dicts whose keys are the house numbers "1".."12" are modelled as total
  functions `ℕ → α` built by successive updates (`dictUpdate`), with default 0
  for absent keys; the update order of the source, including overwrites, is
  reproduced exactly.
-/

/-- Python float modulo `a % b` (exact-arithmetic model, for `b > 0`):
`a % b = a - b * floor (a / b)`. -/
def pymod {α : Type*} [LinearOrderedField α] [FloorRing α] (a b : α) : α :=
  a - b * (⌊a / b⌋ : α)

/-- Python `int(...)` conversion of a float: truncation towards zero. -/
def pytrunc (q : ℚ) : ℤ :=
  if 0 ≤ q then ⌊q⌋ else ⌈q⌉

/-- Update of one key of a Python dict modelled as a total function. -/
def dictUpdate {α : Type*} (f : ℕ → α) (k : ℕ) (v : α) : ℕ → α :=
  fun n => if n = k then v else f n

/-- The seven bodies of the `positions` dict built by
`calculate_planetary_positions`. -/
inductive Body where
  | Sun | Moon | Mercury | Venus | Mars | Jupiter | Saturn

/-- The 27-entry nakshatra table `self.nakshatras`: (name, lord, meaning). -/
def nakshatras : List (String × String × String) :=
  [("Ashwini", "Ketu", "New beginnings, quick action"),
   ("Bharani", "Venus", "Transformation, restraint"),
   ("Krittika", "Sun", "Cutting through illusion"),
   ("Rohini", "Moon", "Growth, fertility, beauty"),
   ("Mrigashira", "Mars", "Searching, curiosity"),
   ("Ardra", "Rahu", "Intensity, change"),
   ("Punarvasu", "Jupiter", "Renewal, optimism"),
   ("Pushya", "Saturn", "Nourishment, protection"),
   ("Ashlesha", "Mercury", "Mystical knowledge"),
   ("Magha", "Ketu", "Ancestral power, authority"),
   ("Purva Phalguni", "Venus", "Creativity, relationships"),
   ("Uttara Phalguni", "Sun", "Leadership, generosity"),
   ("Hasta", "Moon", "Skill, dexterity"),
   ("Chitra", "Mars", "Artistic creation"),
   ("Swati", "Rahu", "Independence, flexibility"),
   ("Vishakha", "Jupiter", "Determination, focus"),
   ("Anuradha", "Saturn", "Devotion, friendship"),
   ("Jyeshtha", "Mercury", "Seniority, protection"),
   ("Mula", "Ketu", "Root investigation"),
   ("Purva Ashadha", "Venus", "Invincibility, pride"),
   ("Uttara Ashadha", "Sun", "Victory, achievement"),
   ("Shravana", "Moon", "Learning, listening"),
   ("Dhanishta", "Mars", "Wealth, music"),
   ("Shatabhisha", "Rahu", "Healing, mystery"),
   ("Purva Bhadrapada", "Jupiter", "Spiritual intensity"),
   ("Uttara Bhadrapada", "Saturn", "Deep wisdom"),
   ("Revati", "Mercury", "Completion, journeys")]

/-- The 10-entry table `self.heavenly_stems`: (name, polarity+element). -/
def heavenly_stems : List (String × String) :=
  [("Jia", "Yang Wood"), ("Yi", "Yin Wood"),
   ("Bing", "Yang Fire"), ("Ding", "Yin Fire"),
   ("Wu", "Yang Earth"), ("Ji", "Yin Earth"),
   ("Geng", "Yang Metal"), ("Xin", "Yin Metal"),
   ("Ren", "Yang Water"), ("Gui", "Yin Water")]

/-- The 12-entry table `self.earthly_branches`: (name, animal). -/
def earthly_branches : List (String × String) :=
  [("Zi", "Rat"), ("Chou", "Ox"), ("Yin", "Tiger"), ("Mao", "Rabbit"),
   ("Chen", "Dragon"), ("Si", "Snake"), ("Wu", "Horse"), ("Wei", "Goat"),
   ("Shen", "Monkey"), ("You", "Rooster"), ("Xu", "Dog"), ("Hai", "Pig")]

/-- The 20-entry table `self.mayan_day_signs`: (name, glyph, meaning). -/
def mayan_day_signs : List (String × String × String) :=
  [("Imix", "Crocodile", "Primordial energy"),
   ("Ik", "Wind", "Spirit, breath"),
   ("Akbal", "Night", "Inner temple"),
   ("Kan", "Seed", "Growth potential"),
   ("Chicchan", "Serpent", "Life force"),
   ("Cimi", "Death", "Transformation"),
   ("Manik", "Deer", "Healing hands"),
   ("Lamat", "Rabbit", "Star seed"),
   ("Muluc", "Water", "Offering"),
   ("Oc", "Dog", "Loyalty, guidance"),
   ("Chuen", "Monkey", "Artistry"),
   ("Eb", "Grass", "Human experience"),
   ("Ben", "Reed", "Flowing waters"),
   ("Ix", "Jaguar", "Magical powers"),
   ("Men", "Eagle", "Planetary mind"),
   ("Cib", "Owl", "Ancient wisdom"),
   ("Caban", "Earth", "Sacred knowledge"),
   ("Etznab", "Flint", "Mirror of truth"),
   ("Cauac", "Storm", "Catalytic energy"),
   ("Ahau", "Sun", "Enlightenment")]

/-- `calculate_julian_day(self, year, month, day, hour, minute)`. -/
def calculate_julian_day (year month day hour minute : ℤ) : ℚ :=
  let year1 : ℤ := if month ≤ 2 then year - 1 else year
  let month1 : ℤ := if month ≤ 2 then month + 12 else month
  let a : ℤ := ⌊(year1 : ℚ) / 100⌋
  let b : ℤ := 2 - a + ⌊(a : ℚ) / 4⌋
  ((⌊(365.25 : ℚ) * ((year1 : ℚ) + 4716)⌋ : ℚ)
    + (⌊(30.6001 : ℚ) * ((month1 : ℚ) + 1)⌋ : ℚ)
    + (day : ℚ) + (b : ℚ) - 1524.5
    + ((hour : ℚ) + (minute : ℚ) / 60) / 24)

/-- `calculate_lahiri_ayanamsa(self, jd)`:
`t = (jd - 2451545.0) / 36525; 23.85 + 50.29 * t / 3600 - 0.000279 * t * t`. -/
def calculate_lahiri_ayanamsa {α : Type*} [LinearOrderedField α] (jd : α) : α :=
  let t := (jd - 2451545.0) / 36525
  23.85 + 50.29 * t / 3600 - 0.000279 * t * t

/-- Python `math.radians`. -/
noncomputable def radians (d : ℝ) : ℝ := d * Real.pi / 180

/-- Python `math.degrees`. -/
noncomputable def degrees (r : ℝ) : ℝ := r * 180 / Real.pi

/-- Python `math.atan2(y, x)` (C-standard quadrant-aware arctangent; the
signed-zero distinction of floats is irrelevant for the exact model). -/
noncomputable def atan2 (y x : ℝ) : ℝ :=
  if 0 < x then Real.arctan (y / x)
  else if x < 0 then
    (if 0 ≤ y then Real.arctan (y / x) + Real.pi else Real.arctan (y / x) - Real.pi)
  else
    (if 0 < y then Real.pi / 2 else if y < 0 then -(Real.pi / 2) else 0)

/-- `calculate_planetary_positions(self, jd)`: the `positions` dict. -/
noncomputable def calculate_planetary_positions (jd : ℝ) : Body → ℝ := fun body =>
  let t := (jd - 2451545.0) / 36525
  let sun_m := 357.52772333 + 35999.05034 * t - 0.0001603 * t * t - t * t * t / 300000
  match body with
  | Body.Sun =>
      let sun_l := 280.4664567 + 360007.6982779 * t + 0.03032028 * t * t
      let sun_c := (1.914602 - 0.004817 * t - 0.000014 * t * t) * Real.sin (radians sun_m)
        + (0.019993 - 0.000101 * t) * Real.sin (radians (2 * sun_m))
        + 0.000289 * Real.sin (radians (3 * sun_m))
      pymod (sun_l + sun_c) 360
  | Body.Moon =>
      let moon_l := 218.3164477 + 481267.88123421 * t - 0.0015786 * t * t
      let moon_d := 297.8501921 + 445267.1114034 * t - 0.0018819 * t * t
      let moon_m := 134.9633964 + 477198.8675055 * t + 0.0087414 * t * t
      let moon_f := 93.272095 + 483202.0175233 * t - 0.0036539 * t * t
      let moon_longitude := moon_l + 6.288774 * Real.sin (radians moon_m)
        + 1.274027 * Real.sin (radians (2 * moon_d - moon_m))
        + 0.658314 * Real.sin (radians (2 * moon_d))
        + 0.213618 * Real.sin (radians (2 * moon_m))
        - 0.185116 * Real.sin (radians sun_m)
      pymod moon_longitude 360
  | Body.Mercury =>
      let mercury_l := 252.250906 + 149472.67411175 * t + 0.00030397 * t * t
      let mercury_m := 174.7948 + 4092.677 * t
      let mercury_c := 23.4400 * Real.sin (radians mercury_m)
      pymod (mercury_l + mercury_c) 360
  | Body.Venus =>
      let venus_l := 181.979801 + 58517.81539 * t + 0.00165 * t * t
      let venus_m := 50.4161 + 1602.961 * t
      let venus_c := 0.7758 * Real.sin (radians venus_m)
      pymod (venus_l + venus_c) 360
  | Body.Mars =>
      let mars_l := 355.433 + 19140.2993313 * t + 0.00026 * t * t
      let mars_m := 19.373 + 686.996 * t
      let mars_c := 10.691 * Real.sin (radians mars_m)
      pymod (mars_l + mars_c) 360
  | Body.Jupiter =>
      let jupiter_l := 34.351484 + 3034.90567464 * t - 0.00008501 * t * t
      let jupiter_m := 20.020 + 83.298 * t
      let jupiter_c := 5.555 * Real.sin (radians jupiter_m)
      pymod (jupiter_l + jupiter_c) 360
  | Body.Saturn =>
      let saturn_l := 50.077471 + 1222.11379404 * t + 0.00021004 * t * t
      let saturn_m := 317.020 + 34.266 * t
      let saturn_c := 5.629 * Real.sin (radians saturn_m)
      pymod (saturn_l + saturn_c) 360

/-- Local Sidereal Time of `calculate_houses`:
`gst = 280.46061837 + 360.98564736629 * (jd - 2451545.0); lst = (gst + longitude) % 360`. -/
noncomputable def lst_of (jd lon : ℝ) : ℝ :=
  pymod (280.46061837 + 360.98564736629 * (jd - 2451545.0) + lon) 360

/-- Obliquity of the ecliptic computed in `calculate_houses`. -/
noncomputable def obliquity_of (jd : ℝ) : ℝ :=
  let t := (jd - 2451545.0) / 36525
  23.4392911 - 0.0130125 * t - 0.00000164 * t * t

/-- Ascendant computed in `calculate_houses`:
`y = cos(lst_rad); x = -sin(lst_rad)*cos(obl_rad) - tan(lat_rad)*sin(obl_rad);
ascendant = degrees(atan2(y, x)) % 360`. -/
noncomputable def ascendant_of (jd lat lon : ℝ) : ℝ :=
  let lst_rad := radians (lst_of jd lon)
  let obl_rad := radians (obliquity_of jd)
  let lat_rad := radians lat
  let y := Real.cos lst_rad
  let x := -Real.sin lst_rad * Real.cos obl_rad - Real.tan lat_rad * Real.sin obl_rad
  pymod (degrees (atan2 y x)) 360

/-- Midheaven computed in `calculate_houses`: `mc = lst % 360`. -/
noncomputable def mc_of (jd lon : ℝ) : ℝ :=
  pymod (lst_of jd lon) 360

/-- The `house_system == "Whole Sign"` branch of `calculate_houses`:
`asc_sign = int(ascendant // 30)`, then for `i` in 1..12
`houses[str(i)] = (asc_sign * 30 + (i - 1) * 30) % 360`. -/
def wholeSignHouses {α : Type*} [LinearOrderedField α] [FloorRing α]
    (ascendant : α) : ℕ → α :=
  let asc_sign : ℤ := ⌊ascendant / 30⌋
  fun i => if 1 ≤ i ∧ i ≤ 12 then
    pymod ((asc_sign : α) * 30 + ((i : α) - 1) * 30) 360 else 0

/-- The `house_system == "Equal"` branch of `calculate_houses`: for `i` in 1..12
`houses[str(i)] = (ascendant + (i - 1) * 30) % 360`. -/
def equalHouses {α : Type*} [LinearOrderedField α] [FloorRing α]
    (ascendant : α) : ℕ → α :=
  fun i => if 1 ≤ i ∧ i ≤ 12 then pymod (ascendant + ((i : α) - 1) * 30) 360 else 0

/-- The default (quadrant-family) branch of `calculate_houses`, with the dict
updates of the source reproduced in program order.  Note that the loop
`for i in range(2, 7)` also runs for `i = 4` (its two conditional branches are
identical), overwriting the initial `houses["4"]`, and the loop
`for i in range(8, 13)` then writes `houses["10"]` from the overwritten
`houses["4"]`. -/
def quadrantHouses {α : Type*} [LinearOrderedField α] [FloorRing α]
    (ascendant mc : α) : ℕ → α :=
  let h : ℕ → α := fun _ => 0
  -- dict literal: key 1 gets ascendant, key 4 gets (mc + 180) % 360,
  -- key 7 gets (ascendant + 180) % 360, key 10 gets mc
  let h := dictUpdate h 1 ascendant
  let h := dictUpdate h 4 (pymod (mc + 180) 360)
  let h := dictUpdate h 7 (pymod (ascendant + 180) 360)
  let h := dictUpdate h 10 mc
  -- for i in range(2, 7): houses[str(i)] = (ascendant + (i - 1) * 30) % 360
  let h := dictUpdate h 2 (pymod (ascendant + (2 - 1) * 30) 360)
  let h := dictUpdate h 3 (pymod (ascendant + (3 - 1) * 30) 360)
  let h := dictUpdate h 4 (pymod (ascendant + (4 - 1) * 30) 360)
  let h := dictUpdate h 5 (pymod (ascendant + (5 - 1) * 30) 360)
  let h := dictUpdate h 6 (pymod (ascendant + (6 - 1) * 30) 360)
  -- for i in range(8, 13):
  --   houses[str(i % 12 if i % 12 != 0 else 12)] = (houses[str(i - 6)] + 180) % 360
  let h := dictUpdate h (if 8 % 12 ≠ 0 then 8 % 12 else 12) (pymod (h (8 - 6) + 180) 360)
  let h := dictUpdate h (if 9 % 12 ≠ 0 then 9 % 12 else 12) (pymod (h (9 - 6) + 180) 360)
  let h := dictUpdate h (if 10 % 12 ≠ 0 then 10 % 12 else 12) (pymod (h (10 - 6) + 180) 360)
  let h := dictUpdate h (if 11 % 12 ≠ 0 then 11 % 12 else 12) (pymod (h (11 - 6) + 180) 360)
  let h := dictUpdate h (if 12 % 12 ≠ 0 then 12 % 12 else 12) (pymod (h (12 - 6) + 180) 360)
  h

/-- `calculate_houses(self, jd, latitude, longitude, house_system)`:
returns the pair `(houses, ascendant)`. -/
noncomputable def calculate_houses (jd latitude longitude : ℝ)
    (house_system : String) : (ℕ → ℝ) × ℝ :=
  let ascendant := ascendant_of jd latitude longitude
  let mc := mc_of jd longitude
  (if house_system = "Whole Sign" then wholeSignHouses ascendant
   else if house_system = "Equal" then equalHouses ascendant
   else quadrantHouses ascendant mc,
   ascendant)

/-- `calculate_vedic_positions(self, tropical_positions, jd)`:
returns the pair `(vedic_positions, ayanamsa)`. -/
def calculate_vedic_positions {α : Type*} [LinearOrderedField α] [FloorRing α]
    (tropical_positions : Body → α) (jd : α) : (Body → α) × α :=
  let ayanamsa := calculate_lahiri_ayanamsa jd
  (fun planet => pymod (tropical_positions planet - ayanamsa) 360, ayanamsa)

/-- Nakshatra index of `get_nakshatra_details`:
`nakshatra_span = 360 / 27; nakshatra_index = int(moon_longitude // nakshatra_span)`. -/
def nakshatra_index {α : Type*} [LinearOrderedField α] [FloorRing α]
    (moon_longitude : α) : ℤ :=
  ⌊moon_longitude / (360 / 27)⌋

/-- Pada of `get_nakshatra_details`:
`nakshatra_remainder = moon_longitude % nakshatra_span;
pada = int(nakshatra_remainder // (nakshatra_span / 4)) + 1`. -/
def nakshatra_pada {α : Type*} [LinearOrderedField α] [FloorRing α]
    (moon_longitude : α) : ℤ :=
  ⌊pymod moon_longitude (360 / 27) / (360 / 27 / 4)⌋ + 1

/-- Result record of `get_nakshatra_details`. -/
structure NakshatraDetails (α : Type*) where
  name : String
  lord : String
  meaning : String
  pada : ℤ
  degree_in_nakshatra : α

/-- `get_nakshatra_details(self, moon_longitude)`. -/
def get_nakshatra_details {α : Type*} [LinearOrderedField α] [FloorRing α]
    (moon_longitude : α) : NakshatraDetails α :=
  let info := nakshatras.getD (nakshatra_index moon_longitude).toNat ("", "", "")
  { name := info.1
    lord := info.2.1
    meaning := info.2.2
    pada := nakshatra_pada moon_longitude
    degree_in_nakshatra := pymod moon_longitude (360 / 27) }

/-- Result record of `calculate_four_pillars`: each pillar is the pair
(heavenly-stem entry, earthly-branch entry). -/
structure FourPillars where
  year : (String × String) × (String × String)
  month : (String × String) × (String × String)
  day : (String × String) × (String × String)
  hour : (String × String) × (String × String)

/-- `calculate_four_pillars(self, birth_datetime)` on the naive civil fields
(year, month, day, hour).  Note that the Chinese-New-Year adjustment mutates
the `year` variable, and the day pillar then converts the *adjusted* year
(`chinese_new_year_adjustment = 35`). -/
def calculate_four_pillars (year month day hour : ℤ) : FourPillars :=
  let year1 : ℤ := if month = 1 ∨ (month = 2 ∧ day < 35) then year - 1 else year
  let year_stem := (year1 - 4) % 10
  let year_branch := (year1 - 4) % 12
  let month_stem := (year1 % 5 * 2 + month) % 10
  let month_branch := (month + 1) % 12
  -- jd = self.calculate_julian_day(year, month, day, 0, 0), with year mutated
  let jd := calculate_julian_day year1 month day 0 0
  let day_offset := pytrunc jd % 60
  let day_stem := day_offset % 10
  let day_branch := day_offset % 12
  let hour_branch := Int.fdiv (hour + 1) 2 % 12
  let hour_stem := (day_stem * 2 + hour_branch) % 10
  { year := (heavenly_stems.getD year_stem.toNat ("", ""),
             earthly_branches.getD year_branch.toNat ("", ""))
    month := (heavenly_stems.getD month_stem.toNat ("", ""),
              earthly_branches.getD month_branch.toNat ("", ""))
    day := (heavenly_stems.getD day_stem.toNat ("", ""),
            earthly_branches.getD day_branch.toNat ("", ""))
    hour := (heavenly_stems.getD hour_stem.toNat ("", ""),
             earthly_branches.getD hour_branch.toNat ("", "")) }

/-- Result record of `calculate_mayan_tzolkin` (the returned dict). -/
structure TzolkinReading where
  kin : ℤ
  day_sign : String
  glyph : String
  meaning : String
  galactic_tone : ℤ

/-- The internal (0-based) kin of `calculate_mayan_tzolkin`:
`total_days = days_since_epoch + 584283; kin = total_days % 260`. -/
def tzolkin_kin (days_since_epoch : ℤ) : ℤ :=
  (days_since_epoch + 584283) % 260

/-- `calculate_mayan_tzolkin(self, birth_datetime)`.  The input is the signed
civil-day count `(birth_datetime - datetime(1900, 1, 1)).days`, which Python
computes as the difference of the two civil dates in days (negative for dates
before 1900-01-01). -/
def calculate_mayan_tzolkin (days_since_epoch : ℤ) : TzolkinReading :=
  let kin := tzolkin_kin days_since_epoch
  let day_sign_index := kin % 20
  let galactic_tone := kin % 13 + 1
  let day_sign_info := mayan_day_signs.getD day_sign_index.toNat ("", "", "")
  { kin := kin + 1
    day_sign := day_sign_info.1
    glyph := day_sign_info.2.1
    meaning := day_sign_info.2.2
    galactic_tone := galactic_tone }

/-!  Basic properties of the float modulo `pymod`. -/

section PymodLemmas

variable {α : Type*} [LinearOrderedField α] [FloorRing α]

theorem pymod_nonneg (a : α) {b : α} (hb : 0 < b) : 0 ≤ pymod a b := by
  have h1 : (⌊a / b⌋ : α) ≤ a / b := Int.floor_le _
  have h2 : b * (⌊a / b⌋ : α) ≤ b * (a / b) := mul_le_mul_of_nonneg_left h1 hb.le
  have h3 : b * (a / b) = a := by field_simp
  unfold pymod
  linarith

theorem pymod_lt (a : α) {b : α} (hb : 0 < b) : pymod a b < b := by
  have h1 : a / b < (⌊a / b⌋ : α) + 1 := Int.lt_floor_add_one _
  have h2 : a < ((⌊a / b⌋ : α) + 1) * b := (div_lt_iff₀ hb).mp h1
  have h3 : ((⌊a / b⌋ : α) + 1) * b = b * (⌊a / b⌋ : α) + b := by ring
  unfold pymod
  linarith

theorem pymod_eq_self {a b : α} (h0 : 0 ≤ a) (h1 : a < b) : pymod a b = a := by
  have hb : 0 < b := lt_of_le_of_lt h0 h1
  have h2 : ⌊a / b⌋ = 0 :=
    Int.floor_eq_zero_iff.mpr ⟨div_nonneg h0 hb.le, (div_lt_one hb).mpr h1⟩
  unfold pymod
  rw [h2]
  push_cast
  ring

theorem pymod_add_int_mul (a : α) {b : α} (hb : b ≠ 0) (k : ℤ) :
    pymod (a + (k : α) * b) b = pymod a b := by
  have h1 : (a + (k : α) * b) / b = a / b + (k : α) := by field_simp
  unfold pymod
  rw [h1]
  push_cast [Int.floor_add_int]
  ring

theorem pymod_pymod_add (a c : α) {b : α} (hb : b ≠ 0) :
    pymod (pymod a b + c) b = pymod (a + c) b := by
  have h : pymod a b + c = (a + c) + ((-⌊a / b⌋ : ℤ) : α) * b := by
    unfold pymod
    push_cast
    ring
  rw [h, pymod_add_int_mul _ hb]

theorem pymod_idem (a : α) {b : α} (hb : 0 < b) : pymod (pymod a b) b = pymod a b :=
  pymod_eq_self (pymod_nonneg a hb) (pymod_lt a hb)

theorem pymod_congr {a a2 b : α} (h : a = a2) : pymod a b = pymod a2 b := by
  rw [h]

theorem pymod_eval {a b r : α} (k : ℤ) (hb : 0 < b) (h : a = (k : α) * b + r)
    (h0 : 0 ≤ r) (h1 : r < b) : pymod a b = r := by
  have h2 : a = r + (k : α) * b := by rw [h]; ring
  rw [h2, pymod_add_int_mul _ hb.ne' k, pymod_eq_self h0 h1]


end PymodLemmas

/-!  Helper lemmas about the house-system functions. -/

theorem ascendant_of_mem (jd lat lon : ℝ) :
    0 ≤ ascendant_of jd lat lon ∧ ascendant_of jd lat lon < 360 := by
  unfold ascendant_of
  exact ⟨pymod_nonneg _ (by norm_num), pymod_lt _ (by norm_num)⟩

theorem mc_of_mem (jd lon : ℝ) : 0 ≤ mc_of jd lon ∧ mc_of jd lon < 360 := by
  unfold mc_of
  exact ⟨pymod_nonneg _ (by norm_num), pymod_lt _ (by norm_num)⟩

theorem calculate_houses_default (jd lat lon : ℝ) {hs : String}
    (h1 : hs ≠ "Whole Sign") (h2 : hs ≠ "Equal") :
    calculate_houses jd lat lon hs =
      (quadrantHouses (ascendant_of jd lat lon) (mc_of jd lon),
       ascendant_of jd lat lon) := by
  show (if hs = "Whole Sign" then wholeSignHouses (ascendant_of jd lat lon)
    else if hs = "Equal" then equalHouses (ascendant_of jd lat lon)
    else quadrantHouses (ascendant_of jd lat lon) (mc_of jd lon),
    ascendant_of jd lat lon) = _
  rw [if_neg h1, if_neg h2]

theorem calculate_houses_equal (jd lat lon : ℝ) :
    calculate_houses jd lat lon "Equal" =
      (equalHouses (ascendant_of jd lat lon), ascendant_of jd lat lon) := by
  show (if ("Equal" : String) = "Whole Sign" then wholeSignHouses (ascendant_of jd lat lon)
    else if ("Equal" : String) = "Equal" then equalHouses (ascendant_of jd lat lon)
    else quadrantHouses (ascendant_of jd lat lon) (mc_of jd lon),
    ascendant_of jd lat lon) = _
  rw [if_neg (by decide : ¬("Equal" : String) = "Whole Sign"), if_pos rfl]

theorem equalHouses_val {α : Type*} [LinearOrderedField α] [FloorRing α]
    (asc : α) (n : ℕ) (h1 : 1 ≤ n) (h2 : n ≤ 12) :
    equalHouses asc n = pymod (asc + ((n : α) - 1) * 30) 360 := by
  unfold equalHouses
  rw [if_pos ⟨h1, h2⟩]

/-- In the quadrant branch the loop overwrites lead to the equal-house values:
every cusp `n` in 1..12 ends up at `(ascendant + 30 * (n - 1)) % 360`
(provided `0 ≤ ascendant < 360`, which `ascendant_of` guarantees). -/
theorem quadrant_eq_thirty {α : Type*} [LinearOrderedField α] [FloorRing α]
    (asc mc : α) (ha0 : 0 ≤ asc) (ha1 : asc < 360) (n : ℕ)
    (h1 : 1 ≤ n) (h2 : n ≤ 12) :
    quadrantHouses asc mc n = pymod (asc + 30 * ((n : α) - 1)) 360 := by
  have h360 : (360 : α) ≠ 0 := by norm_num
  interval_cases n
  · have h : asc + 30 * (((1 : ℕ) : α) - 1) = asc := by push_cast; ring
    rw [show quadrantHouses asc mc 1 = asc from rfl, h, pymod_eq_self ha0 ha1]
  · rw [show quadrantHouses asc mc 2 = pymod (asc + (2 - 1) * 30) 360 from rfl]
    exact pymod_congr (by push_cast; ring)
  · rw [show quadrantHouses asc mc 3 = pymod (asc + (3 - 1) * 30) 360 from rfl]
    exact pymod_congr (by push_cast; ring)
  · rw [show quadrantHouses asc mc 4 = pymod (asc + (4 - 1) * 30) 360 from rfl]
    exact pymod_congr (by push_cast; ring)
  · rw [show quadrantHouses asc mc 5 = pymod (asc + (5 - 1) * 30) 360 from rfl]
    exact pymod_congr (by push_cast; ring)
  · rw [show quadrantHouses asc mc 6 = pymod (asc + (6 - 1) * 30) 360 from rfl]
    exact pymod_congr (by push_cast; ring)
  · rw [show quadrantHouses asc mc 7 = pymod (asc + 180) 360 from rfl]
    exact pymod_congr (by push_cast; ring)
  · rw [show quadrantHouses asc mc 8 =
        pymod (pymod (asc + (2 - 1) * 30) 360 + 180) 360 from rfl,
      pymod_pymod_add _ _ h360]
    exact pymod_congr (by push_cast; ring)
  · rw [show quadrantHouses asc mc 9 =
        pymod (pymod (asc + (3 - 1) * 30) 360 + 180) 360 from rfl,
      pymod_pymod_add _ _ h360]
    exact pymod_congr (by push_cast; ring)
  · rw [show quadrantHouses asc mc 10 =
        pymod (pymod (asc + (4 - 1) * 30) 360 + 180) 360 from rfl,
      pymod_pymod_add _ _ h360]
    exact pymod_congr (by push_cast; ring)
  · rw [show quadrantHouses asc mc 11 =
        pymod (pymod (asc + (5 - 1) * 30) 360 + 180) 360 from rfl,
      pymod_pymod_add _ _ h360]
    exact pymod_congr (by push_cast; ring)
  · rw [show quadrantHouses asc mc 12 =
        pymod (pymod (asc + (6 - 1) * 30) 360 + 180) 360 from rfl,
      pymod_pymod_add _ _ h360]
    exact pymod_congr (by push_cast; ring)

/-- Claim C3: for every Julian Day (including pre-epoch values), every body
longitude returned by `calculate_planetary_positions`, and every body longitude
in the sidereal mapping returned by `calculate_vedic_positions`, lies in
[0, 360). -/
theorem claim_C3 :
    (∀ (jd : ℝ) (b : Body), 0 ≤ calculate_planetary_positions jd b ∧
        calculate_planetary_positions jd b < 360) ∧
    (∀ (trop : Body → ℝ) (jd : ℝ) (b : Body),
        0 ≤ (calculate_vedic_positions trop jd).1 b ∧
        (calculate_vedic_positions trop jd).1 b < 360) := by
  constructor
  · intro jd b
    cases b <;>
      exact ⟨pymod_nonneg _ (by norm_num), pymod_lt _ (by norm_num)⟩
  · intro trop jd b
    exact ⟨pymod_nonneg _ (by norm_num), pymod_lt _ (by norm_num)⟩

/-- Claim C10: for every Julian Day, latitude and longitude, `calculate_houses`
with any quadrant-family systemVariant (any name other than Whole Sign and
Equal) returns exactly the cusps of the Equal variant:
cusp n = (Ascendant + 30 * (n - 1)) mod 360 for n in 1..12.  (This is a
consequence of the `for i in range(2, 7)` loop overwriting the initially
pinned cusp 4, and the opposite-cusp loop then overwriting cusp 10.) -/
theorem claim_C10 (jd lat lon : ℝ) (hs : String)
    (h1 : hs ≠ "Whole Sign") (h2 : hs ≠ "Equal") (n : ℕ)
    (hn1 : 1 ≤ n) (hn2 : n ≤ 12) :
    (calculate_houses jd lat lon hs).1 n = (calculate_houses jd lat lon "Equal").1 n ∧
    (calculate_houses jd lat lon hs).1 n =
      pymod (ascendant_of jd lat lon + 30 * ((n : ℝ) - 1)) 360 := by
  have hq : (calculate_houses jd lat lon hs).1 =
      quadrantHouses (ascendant_of jd lat lon) (mc_of jd lon) := by
    rw [calculate_houses_default jd lat lon h1 h2]
  have he : (calculate_houses jd lat lon "Equal").1 =
      equalHouses (ascendant_of jd lat lon) := by
    rw [calculate_houses_equal]
  have ha0 : 0 ≤ ascendant_of jd lat lon := (ascendant_of_mem jd lat lon).1
  have ha1 : ascendant_of jd lat lon < 360 := (ascendant_of_mem jd lat lon).2
  have hqv := quadrant_eq_thirty (ascendant_of jd lat lon) (mc_of jd lon) ha0 ha1 n hn1 hn2
  have hev : equalHouses (ascendant_of jd lat lon) n =
      pymod (ascendant_of jd lat lon + 30 * ((n : ℝ) - 1)) 360 := by
    rw [equalHouses_val _ n hn1 hn2]
    exact pymod_congr (by ring)
  rw [hq, he, hqv, hev]
  exact ⟨rfl, rfl⟩

/-- Witness for claim C10: concrete instantiation at jd = 0, latitude 0,
longitude 0, variant "Placidus", house 4. -/
theorem claim_C10_witness :
    (("Placidus" : String) ≠ "Whole Sign" ∧ ("Placidus" : String) ≠ "Equal" ∧
      1 ≤ 4 ∧ 4 ≤ 12) ∧
    ((calculate_houses 0 0 0 "Placidus").1 4 = (calculate_houses 0 0 0 "Equal").1 4 ∧
     (calculate_houses 0 0 0 "Placidus").1 4 =
       pymod (ascendant_of 0 0 0 + 30 * (((4 : ℕ) : ℝ) - 1)) 360) :=
  ⟨⟨by decide, by decide, by decide, by decide⟩,
   claim_C10 0 0 0 "Placidus" (by decide) (by decide) 4 (by decide) (by decide)⟩


/-- Claim C5: `calculate_lahiri_ayanamsa` is strictly increasing in Julian Day
within the intended multi-century range of the polynomial, formalized here as
all Julian Days at most 25 Julian centuries after J2000 (about year 4500, far
beyond any multi-century window around the fit epoch; the quadratic term only
turns the polynomial around near t = 25.03 centuries). -/
theorem claim_C5 {α : Type*} [LinearOrderedField α] (jd1 jd2 : α)
    (h : jd1 < jd2) (hrange : jd2 ≤ 2451545 + 25 * 36525) :
    calculate_lahiri_ayanamsa jd1 < calculate_lahiri_ayanamsa jd2 := by
  unfold calculate_lahiri_ayanamsa
  have h36 : (0 : α) < 36525 := by norm_num
  set t1 := (jd1 - 2451545.0) / 36525 with ht1
  set t2 := (jd2 - 2451545.0) / 36525 with ht2
  have htlt : t1 < t2 := by
    rw [ht1, ht2]
    exact div_lt_div_of_pos_right (by linarith) h36
  have ht2le : t2 ≤ 25 := by
    rw [ht2, div_le_iff₀ h36]
    linarith
  have hkey : 0 < 50.29 / 3600 - 0.000279 * (t1 + t2) := by nlinarith
  nlinarith [mul_pos (sub_pos.mpr htlt) hkey]

/-- Witness for claim C5: the concrete Julian Days 2451545 (J2000.0) and
2451546 (one day later). -/
theorem claim_C5_witness :
    ((2451545 : ℚ) < 2451546 ∧ (2451546 : ℚ) ≤ 2451545 + 25 * 36525) ∧
    calculate_lahiri_ayanamsa (2451545 : ℚ) < calculate_lahiri_ayanamsa (2451546 : ℚ) :=
  ⟨⟨by norm_num, by norm_num⟩, claim_C5 2451545 2451546 (by norm_num) (by norm_num)⟩

/-- Claim C6: for every civil date (as signed day count from 1900-01-01,
negative before 1900), `calculate_mayan_tzolkin` returns a kin number in
[1, 260], a galactic tone in [1, 13], a day-sign index in [0, 19], and two
dates exactly 260 days apart receive identical readings. -/
theorem claim_C6 (d : ℤ) :
    (1 ≤ (calculate_mayan_tzolkin d).kin ∧ (calculate_mayan_tzolkin d).kin ≤ 260) ∧
    (1 ≤ (calculate_mayan_tzolkin d).galactic_tone ∧
      (calculate_mayan_tzolkin d).galactic_tone ≤ 13) ∧
    (0 ≤ tzolkin_kin d % 20 ∧ tzolkin_kin d % 20 ≤ 19) ∧
    calculate_mayan_tzolkin (d + 260) = calculate_mayan_tzolkin d := by
  have hk : tzolkin_kin (d + 260) = tzolkin_kin d := by
    unfold tzolkin_kin
    omega
  refine ⟨⟨?_, ?_⟩, ⟨?_, ?_⟩, ⟨?_, ?_⟩, ?_⟩
  · simp only [calculate_mayan_tzolkin]
    unfold tzolkin_kin
    omega
  · simp only [calculate_mayan_tzolkin]
    unfold tzolkin_kin
    omega
  · simp only [calculate_mayan_tzolkin]
    unfold tzolkin_kin
    omega
  · simp only [calculate_mayan_tzolkin]
    unfold tzolkin_kin
    omega
  · unfold tzolkin_kin
    omega
  · unfold tzolkin_kin
    omega
  · simp only [calculate_mayan_tzolkin]
    rw [hk]

/-- Counterexample for claim C7: at the epoch date 1900-01-01 itself (day
count 0) the returned reading has kin 64, day-sign index 3 and tone 12, but
64 mod 20 = 4 and 64 mod 13 + 1 = 13: the returned 1-based kin number does not
satisfy the stated congruences. -/
theorem claim_C7_counterexample :
    ¬((calculate_mayan_tzolkin 0).kin % 20 = tzolkin_kin 0 % 20 ∧
      (calculate_mayan_tzolkin 0).kin % 13 + 1 = (calculate_mayan_tzolkin 0).galactic_tone) := by
  decide

/-- Claim C7 (amended): the reading is internally consistent for the 0-based
kin, i.e. with the returned 1-based kin number shifted by one:
(kin - 1) mod 20 equals the day-sign index used for the table lookup (and the
returned day sign is the table entry at that index), and
((kin - 1) mod 13) + 1 equals the returned galactic tone. -/
theorem claim_C7 (d : ℤ) :
    ((calculate_mayan_tzolkin d).kin - 1) % 20 = tzolkin_kin d % 20 ∧
    ((calculate_mayan_tzolkin d).kin - 1) % 13 + 1 =
      (calculate_mayan_tzolkin d).galactic_tone ∧
    (calculate_mayan_tzolkin d).day_sign =
      (mayan_day_signs.getD ((((calculate_mayan_tzolkin d).kin - 1) % 20).toNat)
        ("", "", "")).1 := by
  have h : (calculate_mayan_tzolkin d).kin - 1 = tzolkin_kin d := by
    simp only [calculate_mayan_tzolkin]
    ring
  refine ⟨by rw [h], ?_, ?_⟩
  · rw [h]
    simp only [calculate_mayan_tzolkin]
  · rw [h]
    simp only [calculate_mayan_tzolkin]

/-- Claim C8: for every sidereal Moon longitude in [0, 360), the nakshatra
index `int(moon_longitude // (360/27))` lies in [0, 26] (so the 27-entry table
lookup is in range) and the pada lies in [1, 4]. -/
theorem claim_C8 {α : Type*} [LinearOrderedField α] [FloorRing α]
    (lon : α) (h0 : 0 ≤ lon) (h1 : lon < 360) :
    0 ≤ nakshatra_index lon ∧ nakshatra_index lon ≤ 26 ∧
    (nakshatra_index lon).toNat < nakshatras.length ∧
    1 ≤ (get_nakshatra_details lon).pada ∧ (get_nakshatra_details lon).pada ≤ 4 := by
  have hspan : (0 : α) < 360 / 27 := by norm_num
  have hi0 : 0 ≤ nakshatra_index lon :=
    Int.floor_nonneg.mpr (div_nonneg h0 hspan.le)
  have hi1 : nakshatra_index lon < 27 := by
    apply Int.floor_lt.mpr
    rw [div_lt_iff₀ hspan]
    push_cast
    linarith
  have hlen : nakshatras.length = 27 := by decide
  have hr0 : 0 ≤ pymod lon (360 / 27) := pymod_nonneg _ hspan
  have hr1 : pymod lon (360 / 27) < 360 / 27 := pymod_lt _ hspan
  have hq4 : (0 : α) < 360 / 27 / 4 := by norm_num
  have hp0 : 0 ≤ ⌊pymod lon (360 / 27) / (360 / 27 / 4)⌋ :=
    Int.floor_nonneg.mpr (div_nonneg hr0 hq4.le)
  have hp1 : ⌊pymod lon (360 / 27) / (360 / 27 / 4)⌋ < 4 := by
    apply Int.floor_lt.mpr
    rw [div_lt_iff₀ hq4]
    push_cast
    linarith
  have hpada : (get_nakshatra_details lon).pada = nakshatra_pada lon := rfl
  refine ⟨hi0, by omega, by omega, ?_, ?_⟩
  · rw [hpada]
    unfold nakshatra_pada
    omega
  · rw [hpada]
    unfold nakshatra_pada
    omega

/-- Witness for claim C8: concrete longitude 100 degrees (over `ℚ`). -/
theorem claim_C8_witness :
    ((0 : ℚ) ≤ 100 ∧ (100 : ℚ) < 360) ∧
    (0 ≤ nakshatra_index (100 : ℚ) ∧ nakshatra_index (100 : ℚ) ≤ 26 ∧
     (nakshatra_index (100 : ℚ)).toNat < nakshatras.length ∧
     1 ≤ (get_nakshatra_details (100 : ℚ)).pada ∧
     (get_nakshatra_details (100 : ℚ)).pada ≤ 4) :=
  ⟨⟨by norm_num, by norm_num⟩, claim_C8 100 (by norm_num) (by norm_num)⟩

/-- Claim C2 (code-bug evidence): for 1994-02-07 the Julian Day of the original
civil date at 00:00 is 2449390.5, so the claimed day pillar has
dayOffset = 2449390 mod 60 = 10, stem index 0 ("Jia") and branch index 10
("Xu"); but the code decrements the year for all January/February dates before
converting to a Julian Day, so it computes the day pillar from the Julian Day
of 1993-02-07 (2449025.5, dayOffset 5) and returns stem "Ji" and branch "Si"
instead. -/
theorem claim_C2_bug :
    pytrunc (calculate_julian_day 1994 2 7 0 0) % 60 = 10 ∧
    heavenly_stems.getD (((10 : ℤ) % 10).toNat) ("", "") = ("Jia", "Yang Wood") ∧
    earthly_branches.getD (((10 : ℤ) % 12).toNat) ("", "") = ("Xu", "Dog") ∧
    (calculate_four_pillars 1994 2 7 20).day = (("Ji", "Yin Earth"), ("Si", "Snake")) ∧
    (calculate_four_pillars 1994 2 7 20).day ≠
      (heavenly_stems.getD (((10 : ℤ) % 10).toNat) ("", ""),
       earthly_branches.getD (((10 : ℤ) % 12).toNat) ("", "")) := by
  have hday : (calculate_four_pillars 1994 2 7 20).day =
      (("Ji", "Yin Earth"), ("Si", "Snake")) := by
    have hjd93 : calculate_julian_day 1993 2 7 0 0 = 2449025.5 := by
      unfold calculate_julian_day
      norm_num
    simp only [calculate_four_pillars]
    have hif : (if ((2 : ℤ) = 1 ∨ (True ∧ (7 : ℤ) < 35)) then (1994 : ℤ) - 1 else 1994)
        = 1993 := by norm_num
    rw [hif, hjd93]
    have hpt : pytrunc (2449025.5 : ℚ) = 2449025 := by
      unfold pytrunc
      norm_num
    rw [hpt]
    decide
  refine ⟨?_, by decide, by decide, hday, ?_⟩
  · have hjd : calculate_julian_day 1994 2 7 0 0 = 2449390.5 := by
      unfold calculate_julian_day
      norm_num
    rw [hjd]
    have hpt : pytrunc (2449390.5 : ℚ) = 2449390 := by
      unfold pytrunc
      norm_num
    rw [hpt]
    decide
  · rw [hday]
    decide

/-- Counterexample for claim C9: the Julian Day for 1994-02-07 20:00 UTC is
2449391.333... = 7348174/3 (this part matches the standard formula), but the
Lahiri ayanamsa at that Julian Day is about 23.8492 degrees, which is not in
the claimed 23.9-24.0 degree band. -/
theorem claim_C9_counterexample :
    calculate_julian_day 1994 2 7 20 0 = 7348174 / 3 ∧
    ¬(23.9 ≤ calculate_lahiri_ayanamsa ((7348174 : ℚ) / 3) ∧
      calculate_lahiri_ayanamsa ((7348174 : ℚ) / 3) ≤ 24.0) := by
  constructor
  · unfold calculate_julian_day
    norm_num
  · intro hcon
    have h1 := hcon.1
    have hlt : calculate_lahiri_ayanamsa ((7348174 : ℚ) / 3) < 23.9 := by
      unfold calculate_lahiri_ayanamsa
      norm_num
    linarith

/-- Claim C9 (amended): `calculate_julian_day 1994 2 7 20 0` equals the
standard-formula value 2449391.3333... = 7348174/3, and the Lahiri ayanamsa at
that Julian Day lies strictly between 23.849 and 23.85 degrees (about 23.8492,
slightly below the 23.9-24.0 band stated in the claim). -/
theorem claim_C9 :
    calculate_julian_day 1994 2 7 20 0 = 7348174 / 3 ∧
    23.849 < calculate_lahiri_ayanamsa (calculate_julian_day 1994 2 7 20 0) ∧
    calculate_lahiri_ayanamsa (calculate_julian_day 1994 2 7 20 0) < 23.85 := by
  have hjd : calculate_julian_day 1994 2 7 20 0 = 7348174 / 3 := by
    unfold calculate_julian_day
    norm_num
  refine ⟨hjd, ?_, ?_⟩ <;> rw [hjd] <;> unfold calculate_lahiri_ayanamsa <;> norm_num

/-- Counterexample for claim C4: at Julian Day 14139545 (320 Julian centuries
after J2000, a mathematically valid input) the ayanamsa polynomial is negative
(-5611/22500), so for a tropical longitude 0 the normalized difference
(tropical - sidereal) mod 360 is 8094389/22500 (about 359.75), not the
ayanamsa. -/
theorem claim_C4_counterexample :
    pymod ((fun _ : Body => (0 : ℚ)) Body.Sun -
        (calculate_vedic_positions (fun _ : Body => (0 : ℚ)) 14139545).1 Body.Sun) 360 ≠
      calculate_lahiri_ayanamsa (14139545 : ℚ) := by
  have hay : calculate_lahiri_ayanamsa (14139545 : ℚ) = -5611 / 22500 := by
    unfold calculate_lahiri_ayanamsa
    norm_num
  have hsid : (calculate_vedic_positions (fun _ : Body => (0 : ℚ)) 14139545).1 Body.Sun
      = 5611 / 22500 := by
    show pymod ((0 : ℚ) - calculate_lahiri_ayanamsa (14139545 : ℚ)) 360 = 5611 / 22500
    rw [hay]
    unfold pymod
    norm_num
  rw [hsid, hay]
  show pymod ((0 : ℚ) - 5611 / 22500) 360 ≠ -5611 / 22500
  unfold pymod
  norm_num

/-- Claim C4 (amended): for every tropical mapping, every Julian Day and every
body, the normalized difference (tropical[body] - sidereal[body]) mod 360
equals the ayanamsa *normalized into [0, 360)* — hence equals the ayanamsa
itself exactly when the ayanamsa value lies in [0, 360), which holds
throughout the intended range of the polynomial but not for all Julian Days. -/
theorem claim_C4 {α : Type*} [LinearOrderedField α] [FloorRing α]
    (trop : Body → α) (jd : α) (b : Body) :
    pymod (trop b - (calculate_vedic_positions trop jd).1 b) 360 =
      pymod (calculate_lahiri_ayanamsa jd) 360 := by
  have hv : (calculate_vedic_positions trop jd).1 b =
      pymod (trop b - calculate_lahiri_ayanamsa jd) 360 := rfl
  rw [hv]
  have h : trop b - pymod (trop b - calculate_lahiri_ayanamsa jd) 360 =
      calculate_lahiri_ayanamsa jd +
        ((⌊(trop b - calculate_lahiri_ayanamsa jd) / 360⌋ : ℤ) : α) * 360 := by
    unfold pymod
    ring
  rw [h, pymod_add_int_mul _ (by norm_num : (360 : α) ≠ 0)]

/-- Claim C1 (code-bug evidence): in the quadrant branch, the loop
`for i in range(2, 7)` also runs for i = 4 and overwrites the cusp that the
dict literal had pinned to the IC, and the opposite-cusp loop then overwrites
cusp 10 from the overwritten cusp 4.  Concretely, at Julian Day 2451545
(J2000.0), latitude 45 and longitude 79.53938163 (chosen so that the Local
Sidereal Time is exactly 0), the Midheaven is 0 and the Ascendant lies
strictly between 90 and 180 degrees, so the returned cusp 4 differs from
(MC + 180) mod 360 = 180 and the returned cusp 10 differs from MC = 0. -/
theorem claim_C1_bug :
    (calculate_houses 2451545 45 79.53938163 "Placidus").1 4 ≠
      pymod (mc_of 2451545 79.53938163 + 180) 360 ∧
    (calculate_houses 2451545 45 79.53938163 "Placidus").1 10 ≠
      mc_of 2451545 79.53938163 := by
  have hq : (calculate_houses 2451545 45 79.53938163 "Placidus").1 =
      quadrantHouses (ascendant_of 2451545 45 79.53938163)
        (mc_of 2451545 79.53938163) := by
    rw [calculate_houses_default 2451545 45 79.53938163
      (by decide : ("Placidus" : String) ≠ "Whole Sign")
      (by decide : ("Placidus" : String) ≠ "Equal")]
  -- the Local Sidereal Time at this input is exactly 0, hence MC = 0
  have hlst : lst_of 2451545 79.53938163 = 0 := by
    unfold lst_of
    have h : (280.46061837 : ℝ) + 360.98564736629 * (2451545 - 2451545.0) + 79.53938163
        = 360 := by norm_num
    rw [h]
    exact pymod_eval 1 (by norm_num) (by norm_num) le_rfl (by norm_num)
  have hmc : mc_of 2451545 79.53938163 = 0 := by
    unfold mc_of
    rw [hlst]
    exact pymod_eq_self le_rfl (by norm_num)
  -- the obliquity at J2000.0
  have hobl : obliquity_of 2451545 = 23.4392911 := by
    unfold obliquity_of
    norm_num
  have hpi := Real.pi_pos
  have hrad0 : radians 0 = 0 := by
    unfold radians
    ring
  have hrad45 : radians 45 = Real.pi / 4 := by
    unfold radians
    ring
  have hoblrad_pos : 0 < radians 23.4392911 := by
    unfold radians
    positivity
  have hoblrad_lt : radians 23.4392911 < Real.pi := by
    unfold radians
    nlinarith
  set s := Real.sin (radians 23.4392911) with hsdef
  have hs : 0 < s := Real.sin_pos_of_pos_of_lt_pi hoblrad_pos hoblrad_lt
  -- the atan2 arguments reduce to y = 1, x = -sin(obliquity)
  have hy : Real.cos (radians (lst_of 2451545 79.53938163)) = 1 := by
    rw [hlst, hrad0, Real.cos_zero]
  have hx : -Real.sin (radians (lst_of 2451545 79.53938163)) *
        Real.cos (radians (obliquity_of 2451545)) -
        Real.tan (radians 45) * Real.sin (radians (obliquity_of 2451545)) = -s := by
    rw [hlst, hobl, hrad0, Real.sin_zero, hrad45, Real.tan_pi_div_four, hsdef]
    ring
  -- atan2 1 (-s) lies strictly between pi/2 and pi
  have hatan : atan2 1 (-s) = Real.arctan (1 / -s) + Real.pi := by
    unfold atan2
    rw [if_neg (by linarith : ¬(0 : ℝ) < -s), if_pos (by linarith : -s < (0 : ℝ)),
      if_pos (by norm_num : (0 : ℝ) ≤ 1)]
  have harc : Real.arctan (1 / -s) = -Real.arctan (1 / s) := by
    rw [div_neg, Real.arctan_neg]
  have harc0 : 0 < Real.arctan (1 / s) := by
    have h := Real.arctan_strictMono (show (0 : ℝ) < 1 / s by positivity)
    rwa [Real.arctan_zero] at h
  have harclt : Real.arctan (1 / s) < Real.pi / 2 := Real.arctan_lt_pi_div_two _
  have hv1 : Real.pi / 2 < atan2 1 (-s) := by
    rw [hatan, harc]
    linarith
  have hv2 : atan2 1 (-s) < Real.pi := by
    rw [hatan, harc]
    linarith
  -- hence the ascendant in degrees lies strictly between 90 and 180
  have hd1 : 90 < degrees (atan2 1 (-s)) := by
    unfold degrees
    rw [lt_div_iff₀ hpi]
    linarith
  have hd2 : degrees (atan2 1 (-s)) < 180 := by
    unfold degrees
    rw [div_lt_iff₀ hpi]
    linarith
  have hasc : ascendant_of 2451545 45 79.53938163 = degrees (atan2 1 (-s)) := by
    show pymod (degrees (atan2
      (Real.cos (radians (lst_of 2451545 79.53938163)))
      (-Real.sin (radians (lst_of 2451545 79.53938163)) *
          Real.cos (radians (obliquity_of 2451545)) -
        Real.tan (radians 45) * Real.sin (radians (obliquity_of 2451545))))) 360 =
      degrees (atan2 1 (-s))
    rw [hy, hx]
    exact pymod_eq_self (by linarith) (by linarith)
  have hmem := ascendant_of_mem 2451545 45 79.53938163
  constructor
  · -- cusp 4 is (ascendant + 90) % 360 = ascendant + 90 > 180, not 180
    have hh4 : (calculate_houses 2451545 45 79.53938163 "Placidus").1 4 =
        pymod (ascendant_of 2451545 45 79.53938163 + 30 * (((4 : ℕ) : ℝ) - 1)) 360 := by
      rw [hq]
      exact quadrant_eq_thirty _ _ hmem.1 hmem.2 4 (by norm_num) (by norm_num)
    rw [hh4, hasc, hmc]
    have e1 : degrees (atan2 1 (-s)) + 30 * (((4 : ℕ) : ℝ) - 1)
        = degrees (atan2 1 (-s)) + 90 := by
      push_cast
      ring
    rw [e1]
    have e2 : pymod (degrees (atan2 1 (-s)) + 90) 360 = degrees (atan2 1 (-s)) + 90 :=
      pymod_eq_self (by linarith) (by linarith)
    have e3 : pymod ((0 : ℝ) + 180) 360 = 180 := by
      rw [show ((0 : ℝ) + 180) = 180 by norm_num]
      exact pymod_eq_self (by norm_num) (by norm_num)
    rw [e2, e3]
    intro hcontra
    linarith
  · -- cusp 10 is (ascendant + 270) % 360 = ascendant - 90 > 0, not 0
    have hh10 : (calculate_houses 2451545 45 79.53938163 "Placidus").1 10 =
        pymod (ascendant_of 2451545 45 79.53938163 + 30 * (((10 : ℕ) : ℝ) - 1)) 360 := by
      rw [hq]
      exact quadrant_eq_thirty _ _ hmem.1 hmem.2 10 (by norm_num) (by norm_num)
    rw [hh10, hasc, hmc]
    have e4 : pymod (degrees (atan2 1 (-s)) + 30 * (((10 : ℕ) : ℝ) - 1)) 360 =
        degrees (atan2 1 (-s)) - 90 := by
      refine pymod_eval 1 (by norm_num) ?_ (by linarith) (by linarith)
      push_cast
      ring
    rw [e4]
    intro hcontra
    linarith
